import Mathlib

/-!
Verification development for the AgriMRV carbon pipeline.

This file gives a shallow embedding, in Lean 4, of the biomass estimator,
the carbon-credit converter, the plot aggregator and the MRV package
builder/verifier of the AgriMRV repository, and proves the behavioural
claims made about them.

Conventions of the embedding:
* JavaScript numbers are modelled as exact rationals where the code only
  performs field arithmetic (carbon credit converter, MRV totals), and as
  real numbers where the code calls `Math.pow` with fractional exponents
  (the biomass estimator).
* `Math.round(x * 100) / 100` style rounding is modelled with Mathlib's
  `round` (round half towards positive infinity, which is exactly the
  JavaScript `Math.round` behaviour).
* Optional/nullable inputs are `Option` values; JavaScript truthiness of a
  numeric value is "present and nonzero"; `a || b` on a possibly absent
  number is `jsOr`.
* Code that throws is modelled with `Except String`.
-/

namespace AgriMRV

/-! ## Rounding helpers (JavaScript `Math.round` semantics)

`Math.round(x * 10^k) / 10^k` rounds to `k` decimal places, half towards
positive infinity.  Mathlib's `round` has exactly this tie-breaking
behaviour. -/

/-- Round to 1 decimal place: `Math.round(x * 10) / 10`. -/
def round1 {α : Type _} [LinearOrderedField α] [FloorRing α] (x : α) : α :=
  (round (x * 10) : ℤ) / 10

/-- Round to 2 decimal places: `Math.round(x * 100) / 100`. -/
def round2 {α : Type _} [LinearOrderedField α] [FloorRing α] (x : α) : α :=
  (round (x * 100) : ℤ) / 100

/-- Round to 3 decimal places: `Math.round(x * 1000) / 1000`. -/
def round3 {α : Type _} [LinearOrderedField α] [FloorRing α] (x : α) : α :=
  (round (x * 1000) : ℤ) / 1000

/-! ## Carbon credit converter

Embeds `CarbonCreditService.calculateCredits` from
`apps/api/src/services/carbonCreditService.ts`.  The function is pure
field arithmetic on a JavaScript number, modelled as `ℚ`. -/

/-- IPCC carbon fraction constant (47% of biomass is carbon). -/
def CARBON_FRACTION : ℚ := 0.47

/-- CO2 to carbon molecular weight ratio. -/
def CO2_MOLECULAR_RATIO : ℚ := 3.67

/-- Result record of `CarbonCreditService.calculateCredits`. -/
structure CreditCalc where
  carbonStockKg : ℚ
  carbonStockTons : ℚ
  co2EquivalentKg : ℚ
  co2EquivalentTons : ℚ
  creditsGenerated : ℚ
deriving DecidableEq

/-- `CarbonCreditService.calculateCredits(biomassKg)`: carbon stock,
CO2 equivalent and credits, each rounded on output (kg to 2 decimals,
tons and credits to 3 decimals). -/
def calculateCredits (biomassKg : ℚ) : CreditCalc :=
  let carbonStockKg := biomassKg * CARBON_FRACTION
  let carbonStockTons := carbonStockKg / 1000
  let co2EquivalentKg := carbonStockKg * CO2_MOLECULAR_RATIO
  let co2EquivalentTons := co2EquivalentKg / 1000
  let creditsGenerated := co2EquivalentTons
  { carbonStockKg := round2 carbonStockKg
    carbonStockTons := round3 carbonStockTons
    co2EquivalentKg := round2 co2EquivalentKg
    co2EquivalentTons := round3 co2EquivalentTons
    creditsGenerated := round3 creditsGenerated }

/-! ## Biomass estimator

Embeds `BiomassEstimationService.estimateBiomass`,
`BiomassEstimationService.getMethodUncertainty` and
`BiomassEstimationService.estimatePlotBiomass` from
`apps/api/src/services/biomassEstimation.ts`.  `Math.pow` with fractional
exponents forces the real numbers here; powers of JavaScript numbers are
modelled with `Real.rpow`. -/

/-- The optional raw measurements of one tree (`TreeMeasurements`). -/
structure TreeMeasurements where
  height_meters : Option ℝ
  dbh_cm : Option ℝ
  canopy_cover_m2 : Option ℝ
  species_code : Option String

/-- A row of the `tree_species` lookup table (`SpeciesData`).  Only the
fields the estimator reads are modelled. -/
structure SpeciesData where
  species_code : String
  wood_density_kg_m3 : ℝ
  allometric_a : ℝ
  allometric_b : ℝ
  uncertainty_pct : ℝ

/-- The estimator result record (`BiomassEstimate`). -/
structure BiomassEstimate where
  biomass_estimate_kg : ℝ
  carbon_sequestration_kg : ℝ
  co2_equivalent_kg : ℝ
  uncertainty_pct : ℝ
  method : String
  confidence_pct : ℝ
  species_data : Option SpeciesData

/-- The guard `v && v > 0` on an optional JavaScript number: the value is
present and strictly positive.  (`undefined` and `null` are falsy and
compare as false under `> 0`; a present nonzero negative value is truthy
but fails `> 0`, so the conjunction collapses to "present and positive".) -/
def optPos (o : Option ℝ) : Prop :=
  match o with
  | none => False
  | some x => 0 < x

noncomputable instance (o : Option ℝ) : Decidable (optPos o) :=
  match o with
  | none => isFalse id
  | some x => inferInstanceAs (Decidable (0 < x))

/-- JavaScript `x || d` on a possibly absent number: the value when present
and nonzero, else the default. -/
noncomputable def jsOr (x : Option ℝ) (d : ℝ) : ℝ :=
  match x with
  | none => d
  | some v => if v = 0 then d else v

/-- `getSpeciesData`: look the species code up in the `tree_species` table
after upper-casing it.  The table is abstracted as a lookup function. -/
def getSpeciesData (db : String → Option SpeciesData) (speciesCode : String) :
    Option SpeciesData :=
  db speciesCode.toUpper

/-- The `if (species_code) { speciesData = await this.getSpeciesData(...) }`
preamble of `estimateBiomass`: species data is resolved only when a truthy
(present, non-empty) species code was supplied. -/
def resolveSpecies (db : String → Option SpeciesData) (m : TreeMeasurements) :
    Option SpeciesData :=
  match m.species_code with
  | none => none
  | some s => if s = "" then none else getSpeciesData db s

/-- `speciesData?.wood_density_kg_m3 || 0.6`. -/
noncomputable def woodDensityOf (sd : Option SpeciesData) : ℝ :=
  jsOr (sd.map (·.wood_density_kg_m3)) 0.6

/-- `speciesData?.allometric_a || 0.0673`. -/
noncomputable def allometricAOf (sd : Option SpeciesData) : ℝ :=
  jsOr (sd.map (·.allometric_a)) 0.0673

/-- `speciesData?.allometric_b || 0.976`. -/
noncomputable def allometricBOf (sd : Option SpeciesData) : ℝ :=
  jsOr (sd.map (·.allometric_b)) 0.976

/-- `speciesData?.uncertainty_pct || 25.0`. -/
noncomputable def speciesUncertaintyOf (sd : Option SpeciesData) : ℝ :=
  jsOr (sd.map (·.uncertainty_pct)) 25.0

/-- Does the first char list start with the second..? helper: does `hay`
start with `needle`? -/
def startsWithChars : List Char → List Char → Bool
  | [], _ => true
  | _ :: _, [] => false
  | a :: as, b :: bs => a == b && startsWithChars as bs

/-- Does `hay` contain `needle` as a contiguous run? -/
def hasSubChars (needle : List Char) : List Char → Bool
  | [] => needle.isEmpty
  | c :: rest => startsWithChars needle (c :: rest) || hasSubChars needle rest

/-- JavaScript `hay.includes(needle)` on strings. -/
def strIncludes (hay needle : String) : Bool :=
  hasSubChars needle.data hay.data

/-- `getMethodUncertainty(method)`: iterate the fixed table in insertion
order and return the value of the first key contained in the method label,
defaulting to 30. -/
noncomputable def getMethodUncertainty (method : String) : ℝ :=
  if strIncludes method "allometric_species_" then 15
  else if strIncludes method "allometric_generic" then 20
  else if strIncludes method "allometric_crown_estimated" then 25
  else if strIncludes method "height_only_estimation" then 35
  else if strIncludes method "crown_area_estimation" then 40
  else 30

/-- The tail of `estimateBiomass` after the method ladder has produced a
raw biomass, a method label and a confidence: clamp to 0.1 kg, derive
carbon and CO2e, combine uncertainties, round and assemble the result. -/
noncomputable def finishEstimate (speciesData : Option SpeciesData)
    (rawBiomassKg : ℝ) (method : String) (confidence : ℝ) : BiomassEstimate :=
  let biomassKg := max rawBiomassKg 0.1
  let carbonKg := biomassKg * 0.47
  let co2EquivalentKg := carbonKg * 3.67
  let baseUncertainty := getMethodUncertainty method
  let finalUncertainty :=
    if speciesData.isSome then
      Real.sqrt (baseUncertainty ^ 2 + speciesUncertaintyOf speciesData ^ 2)
    else baseUncertainty
  { biomass_estimate_kg := round2 biomassKg
    carbon_sequestration_kg := round2 carbonKg
    co2_equivalent_kg := round2 co2EquivalentKg
    uncertainty_pct := round1 finalUncertainty
    method := method
    confidence_pct := confidence
    species_data := speciesData }

/-- The method label of the full allometric branch:
`speciesData ? allometric_species_<code> : allometric_generic`. -/
def fullAllometricLabel (speciesData : Option SpeciesData)
    (species_code : Option String) : String :=
  match speciesData, species_code with
  | some _, some code => "allometric_species_" ++ code
  | _, _ => "allometric_generic"

/-- `BiomassEstimationService.estimateBiomass(measurements)`: the strict
four-branch method ladder followed by the common derivation tail; throws
when no branch applies. -/
noncomputable def estimateBiomass (db : String → Option SpeciesData)
    (m : TreeMeasurements) : Except String BiomassEstimate :=
  let speciesData := resolveSpecies db m
  let woodDensity := woodDensityOf speciesData
  let allometricA := allometricAOf speciesData
  let allometricB := allometricBOf speciesData
  let selected : Option (ℝ × String × ℝ) :=
    if optPos m.dbh_cm ∧ optPos m.height_meters then
      let dbhM := m.dbh_cm.getD 0 / 100
      some (allometricA * (woodDensity * dbhM ^ 2 * m.height_meters.getD 0) ^ allometricB,
        fullAllometricLabel speciesData m.species_code,
        if speciesData.isSome then 100 - speciesUncertaintyOf speciesData else 75)
    else if optPos m.height_meters ∧ optPos m.canopy_cover_m2 then
      let crownDiameter := Real.sqrt (m.canopy_cover_m2.getD 0 / Real.pi) * 2
      let estimatedDbhCm := crownDiameter * 80
      let estimatedDbhM := estimatedDbhCm / 100
      some (allometricA * (woodDensity * estimatedDbhM ^ 2 * m.height_meters.getD 0) ^ allometricB,
        "allometric_crown_estimated", 60)
    else if optPos m.height_meters then
      some (m.height_meters.getD 0 ^ (2.5 : ℝ) * woodDensity * 2.5,
        "height_only_estimation", 40)
    else if optPos m.canopy_cover_m2 then
      some (m.canopy_cover_m2.getD 0 * woodDensity * 15,
        "crown_area_estimation", 35)
    else none
  match selected with
  | none => .error "Insufficient measurements for biomass estimation"
  | some (rawBiomassKg, method, confidence) =>
      .ok (finishEstimate speciesData rawBiomassKg method confidence)

/-! ## Plot aggregator

Embeds `estimatePlotBiomass`: the rows of the `trees` table for the plot
are passed in directly (the `SELECT .. WHERE plot_id = $1 ORDER BY id`
query is abstracted as that list). -/

/-- A row of the `trees` table, restricted to the fields the aggregator
reads. -/
structure DbTreeRow where
  id : String
  height_meters : Option ℝ
  dbh_cm : Option ℝ
  canopy_cover_m2 : Option ℝ
  species_code : Option String

/-- The measurements record handed to the estimator for one row. -/
def DbTreeRow.measurements (t : DbTreeRow) : TreeMeasurements :=
  { height_meters := t.height_meters
    dbh_cm := t.dbh_cm
    canopy_cover_m2 := t.canopy_cover_m2
    species_code := t.species_code }

/-- The `totals` record of the plot aggregate. -/
structure PlotTotals where
  total_trees : ℕ
  total_biomass_kg : ℝ
  total_carbon_kg : ℝ
  total_co2_equivalent_kg : ℝ
  average_uncertainty_pct : ℝ

/-- The full aggregate returned by `estimatePlotBiomass`. -/
structure PlotEstimation where
  trees : List (String × BiomassEstimate)
  totals : PlotTotals

/-- Every numeric value the totals record reports, as real numbers. -/
def PlotTotals.reportedValues (t : PlotTotals) : List ℝ :=
  [(t.total_trees : ℝ), t.total_biomass_kg, t.total_carbon_kg,
    t.total_co2_equivalent_kg, t.average_uncertainty_pct]

/-- The running accumulator of the per-tree loop in `estimatePlotBiomass`. -/
structure PlotAcc where
  estimates : List (String × BiomassEstimate)
  totalBiomass : ℝ
  totalCarbon : ℝ
  totalCo2 : ℝ
  totalUncertainty : ℝ
  estimatedTrees : ℕ

/-- One iteration of the loop: a failing estimate is caught (logged) and
the tree is skipped; a successful one is appended and accumulated. -/
noncomputable def processTree (db : String → Option SpeciesData)
    (acc : PlotAcc) (tree : DbTreeRow) : PlotAcc :=
  match estimateBiomass db tree.measurements with
  | .error _ => acc
  | .ok estimate =>
      { estimates := acc.estimates ++ [(tree.id, estimate)]
        totalBiomass := acc.totalBiomass + estimate.biomass_estimate_kg
        totalCarbon := acc.totalCarbon + estimate.carbon_sequestration_kg
        totalCo2 := acc.totalCo2 + estimate.co2_equivalent_kg
        totalUncertainty := acc.totalUncertainty + estimate.uncertainty_pct
        estimatedTrees := acc.estimatedTrees + 1 }

/-- `estimatePlotBiomass`: loop over the plot's tree rows, then assemble
the totals (average uncertainty is 0 when no tree succeeded). -/
noncomputable def estimatePlotBiomass (db : String → Option SpeciesData)
    (rows : List DbTreeRow) : PlotEstimation :=
  let acc := rows.foldl (processTree db) ⟨[], 0, 0, 0, 0, 0⟩
  let averageUncertainty :=
    if 0 < acc.estimatedTrees then acc.totalUncertainty / acc.estimatedTrees else 0
  { trees := acc.estimates
    totals :=
      { total_trees := acc.estimatedTrees
        total_biomass_kg := round2 acc.totalBiomass
        total_carbon_kg := round2 acc.totalCarbon
        total_co2_equivalent_kg := round2 acc.totalCo2
        average_uncertainty_pct := round1 averageUncertainty } }

/-- The successful per-tree estimates of a row list, in order (the
reference description of what the loop accumulates). -/
noncomputable def successfulEstimates (db : String → Option SpeciesData)
    (rows : List DbTreeRow) : List (String × BiomassEstimate) :=
  rows.filterMap fun t =>
    match estimateBiomass db t.measurements with
    | .ok e => some (t.id, e)
    | .error _ => none

/-- The method label of an estimator outcome (errors propagate). -/
def methodOf (r : Except String BiomassEstimate) : Except String String :=
  r.map (·.method)

/-! ### Concrete fixtures used by witnesses and counterexamples -/

/-- The empty species table: every lookup misses, so the estimator always
falls back to its default parameters. -/
def dbNone : String → Option SpeciesData := fun _ => none

/-- Measurements with only a canopy-cover value. -/
noncomputable def canopyOnly (c : ℝ) : TreeMeasurements :=
  ⟨none, none, some c, none⟩

/-- Measurements with a tiny DBH and height (0.1 cm, 0.1 m). -/
noncomputable def tinyTree : TreeMeasurements :=
  ⟨some 0.1, some 0.1, none, none⟩

/-- The raw (pre-clamp) full-allometric biomass of `tinyTree` under the
default parameters. -/
noncomputable def tinyRaw : ℝ :=
  0.0673 * ((0.6 * ((0.1 : ℝ) / 100) ^ 2 * 0.1) ^ (0.976 : ℝ))

/-- The estimate `tinyTree` produces. -/
noncomputable def tinyEstimate : BiomassEstimate :=
  finishEstimate none tinyRaw "allometric_generic" 75

/-- The raw (pre-clamp) biomass of the full allometric branch:
`a × (ρ × (DBH_cm/100)² × height)^b` with the parameters drawn from the
resolved species data or the defaults. -/
noncomputable def fullAllometricRaw (sd : Option SpeciesData) (dbh h : ℝ) : ℝ :=
  allometricAOf sd * (woodDensityOf sd * (dbh / 100) ^ 2 * h) ^ allometricBOf sd

/-- The estimate a canopy-only tree of 10 m² produces against the empty
species table. -/
noncomputable def canopyEstimate10 : BiomassEstimate :=
  finishEstimate none (10 * 0.6 * 15) "crown_area_estimation" 35

/-- The estimate a canopy-only tree of 20 m² produces against the empty
species table. -/
noncomputable def canopyEstimate20 : BiomassEstimate :=
  finishEstimate none (20 * 0.6 * 15) "crown_area_estimation" 35

/-- A tree row with only a canopy-cover measurement. -/
noncomputable def canopyRow (id : String) (c : ℝ) : DbTreeRow :=
  ⟨id, none, none, some c, none⟩

/-- A tree row with no usable measurements. -/
def emptyRow (id : String) : DbTreeRow :=
  ⟨id, none, none, none, none⟩

/-- A three-tree plot where the middle tree has no usable measurements. -/
noncomputable def threeTreePlot : List DbTreeRow :=
  [canopyRow "t1" 10, emptyRow "t2", canopyRow "t3" 20]

/-- A two-tree plot of canopy-only trees. -/
noncomputable def twoTreePlot : List DbTreeRow :=
  [canopyRow "t1" 10, canopyRow "t3" 20]

/-! ## MRV package builder and verifier

Embeds `exportMRVPackage` from `apps/api/src/services/mrvExport.ts`, the
`POST /plots/:plotId/mrv/export` and `GET /mrv/:pkgId/verify` routes, and
`anchorHash` from the ledger service.

Modelling choices:
* The filesystem is an association list from absolute paths to file
  contents; a write prepends (shadowing any older entry).  Writes can be
  refused by the simulated filesystem (`writeOk`), modelling
  `fs.writeFileSync` throwing.
* `checksums.json` is stored structurally (`FileContent.checks`), so the
  `JSON.stringify`/`JSON.parse` round trip of that one record is the
  identity, which is lossless for this flat string map.
* SHA-256 is abstracted as a parameter `hash : FileContent → String` used
  by both `sha256OfString` (on `.text`) and `sha256OfFile` (on the stored
  content); the claims about the export/verify pair hold for every hash
  function.
* JSON serialisation of the four artifact documents is abstracted by the
  `ArtifactBuilders` parameter: the claims concern which files are
  written, how digests are combined and when the package row is
  persisted, not the byte-level encoding.
* The working directory is fixed, so `path.resolve(process.cwd(),
  "storage", rel)`, `path.join(process.cwd(), "storage", rel)` and the
  relative `storage/<rel>` all denote `storPath rel`.
* Database numbers are exact rationals here (the export only sums and
  divides by 1000). -/

/-- Contents of a stored file: opaque text, or the parsed `checksums.json`
record `{ files: { path: digest } }`. -/
inductive FileContent where
  | text (s : String)
  | checks (files : List (String × String))
deriving DecidableEq

/-- The simulated filesystem: entries plus a write-permission predicate. -/
structure SimFS where
  entries : List (String × FileContent)
  writeOk : String → Bool

/-- First entry wins: newer writes shadow older ones. -/
def fsLookup : List (String × FileContent) → String → Option FileContent
  | [], _ => none
  | (p, c) :: rest, q => if p = q then some c else fsLookup rest q

/-- The absolute path of `storage/<rel>` under the fixed working
directory. -/
def storPath (rel : String) : String :=
  "/app/storage/" ++ rel

/-- `writeFileRel(relPath, data)`: create or overwrite `storage/<rel>`;
throws when the filesystem refuses the write. -/
def writeFileRel (fs : SimFS) (rel : String) (c : FileContent) :
    Except String SimFS :=
  if fs.writeOk (storPath rel) then
    .ok { fs with entries := (storPath rel, c) :: fs.entries }
  else .error ("Failed to write " ++ storPath rel)

/-- `sha256OfFile(path)`: hash the file at an absolute path, throwing when
it does not exist. -/
def sha256OfFile (hash : FileContent → String) (fs : SimFS) (p : String) :
    Except String String :=
  match fsLookup fs.entries p with
  | none => .error ("Failed to hash file " ++ p)
  | some c => .ok (hash c)

/-- A row of the `Plot` table (fields the export reads). -/
structure Plot where
  id : String
  name : String
  agroEcozone : String
  boundaryGeojson : String
deriving DecidableEq

/-- A joined tree/estimate row; only the fields the export logic itself
computes with are modelled, the rest is consumed by the abstract
serialisers. -/
structure TreeRow where
  id : String
  agbKg : Option ℚ
  carbonKg : Option ℚ
deriving DecidableEq

/-- The `totals` object of the outputs document. -/
structure MRVTotals where
  totalTrees : ℕ
  plotAGBTons : ℚ
  plotCarbonTons : ℚ
deriving DecidableEq

/-- Abstract serialisers for the four artifact documents. -/
structure ArtifactBuilders where
  inputsDoc : Plot → List TreeRow → String
  outputsDoc : List TreeRow → MRVTotals → String
  manifestDoc : String → String
  summaryDoc : Plot → MRVTotals → String

/-- A row of the `MRVPackage` table. -/
structure MRVPackageRow where
  id : String
  runId : String
  schemaVersion : String
  artifactsUri : String
  checksum : String
  ledgerTxId : Option String
deriving DecidableEq

/-- The state the export/verify pair works over: the relevant database
tables and the artifact storage filesystem.  `nextPkgId` is the id the
database will assign to the next inserted package row. -/
structure MRVState where
  plots : String → Option Plot
  treesOf : String → List TreeRow
  runOf : String → Option String
  packages : List MRVPackageRow
  nextPkgId : String
  fs : SimFS

/-- The value `exportMRVPackage` resolves with. -/
structure ExportResult where
  pkgId : String
  topHash : String
  artifactsUri : String
  relBase : String
deriving DecidableEq

/-- JavaScript `Object.keys` of an object built from key/value pairs:
duplicates collapsed (order is irrelevant downstream because the keys are
always sorted before use). -/
def jsObjectKeys (files : List (String × String)) : List String :=
  (files.map Prod.fst).dedup

/-- JavaScript `Array.prototype.sort()` on string keys: lexicographic
ascending. -/
def sortKeys (l : List String) : List String :=
  l.insertionSort (· ≤ ·)

/-- Value of `files[k]` of the checksums object (a missing key joins as
the empty string, as `Array.prototype.join` renders `undefined`). -/
def lookupVal : List (String × String) → String → String
  | [], _ => ""
  | (p, v) :: rest, k => if p = k then v else lookupVal rest k

/-- The aggregate-hash input: digests joined with a bar separator in
sorted key order
(`Object.keys(checksums.files).sort().map(k => checksums.files[k]).join(..)`). -/
def checksumConcat (files : List (String × String)) : String :=
  String.intercalate "|" ((sortKeys (jsObjectKeys files)).map (lookupVal files))

/-- The relative folder of a package export:
`packages/mrv_pkg_<plotId>_<timestamp>`. -/
def relBaseOf (plotId ts : String) : String :=
  "packages/" ++ ("mrv_pkg_" ++ plotId ++ "_" ++ ts)

/-- The four artifact digest entries of `checksums.json`, keyed by
relative path. -/
def exportFiles (hash : FileContent → String) (relBase : String)
    (c1 c2 c3 c4 : FileContent) : List (String × String) :=
  [(relBase ++ "/inputs/trees.json", hash c1),
    (relBase ++ "/outputs/estimates.json", hash c2),
    (relBase ++ "/manifest.json", hash c3),
    (relBase ++ "/reports/summary.md", hash c4)]

/-- `exportMRVPackage(plotId)`: look up the plot, build the artifacts,
write them, hash them, write `checksums.json`, compute the top-level hash
and only then insert the package row.  Every thrown error carries the
state reached so far (partially written files persist, the package table
does not change). -/
def exportMRVPackage (hash : FileContent → String) (B : ArtifactBuilders)
    (st : MRVState) (plotId ts : String) :
    MRVState × Except String ExportResult :=
  match st.plots plotId with
  | none => (st, .error "Plot not found")
  | some plot =>
    let trees := st.treesOf plotId
    let totals : MRVTotals :=
      { totalTrees := trees.length
        plotAGBTons := ((trees.map (fun t => t.agbKg.getD 0)).sum) / 1000
        plotCarbonTons := ((trees.map (fun t => t.carbonKg.getD 0)).sum) / 1000 }
    let relBase := relBaseOf plotId ts
    let pInputs := relBase ++ "/inputs/trees.json"
    let pOutputs := relBase ++ "/outputs/estimates.json"
    let pManifest := relBase ++ "/manifest.json"
    let pReport := relBase ++ "/reports/summary.md"
    match writeFileRel st.fs pInputs (.text (B.inputsDoc plot trees)) with
    | .error e => (st, .error e)
    | .ok fs1 =>
    match writeFileRel fs1 pOutputs (.text (B.outputsDoc trees totals)) with
    | .error e => ({ st with fs := fs1 }, .error e)
    | .ok fs2 =>
    match writeFileRel fs2 pManifest (.text (B.manifestDoc plot.id)) with
    | .error e => ({ st with fs := fs2 }, .error e)
    | .ok fs3 =>
    match writeFileRel fs3 pReport (.text (B.summaryDoc plot totals)) with
    | .error e => ({ st with fs := fs3 }, .error e)
    | .ok fs4 =>
    match sha256OfFile hash fs4 (storPath pInputs) with
    | .error e => ({ st with fs := fs4 }, .error ("Failed to generate checksums: " ++ e))
    | .ok h1 =>
    match sha256OfFile hash fs4 (storPath pOutputs) with
    | .error e => ({ st with fs := fs4 }, .error ("Failed to generate checksums: " ++ e))
    | .ok h2 =>
    match sha256OfFile hash fs4 (storPath pManifest) with
    | .error e => ({ st with fs := fs4 }, .error ("Failed to generate checksums: " ++ e))
    | .ok h3 =>
    match sha256OfFile hash fs4 (storPath pReport) with
    | .error e => ({ st with fs := fs4 }, .error ("Failed to generate checksums: " ++ e))
    | .ok h4 =>
    let files := [(pInputs, h1), (pOutputs, h2), (pManifest, h3), (pReport, h4)]
    match writeFileRel fs4 (relBase ++ "/checksums.json") (.checks files) with
    | .error e => ({ st with fs := fs4 }, .error e)
    | .ok fs5 =>
      let topHash := hash (.text (checksumConcat files))
      let runId := (st.runOf plotId).getD plot.id
      let pkg : MRVPackageRow :=
        { id := st.nextPkgId, runId := runId, schemaVersion := "1.0"
          artifactsUri := "file://" ++ storPath relBase
          checksum := topHash, ledgerTxId := none }
      ({ st with fs := fs5, packages := st.packages ++ [pkg] },
        .ok { pkgId := pkg.id, topHash := topHash,
              artifactsUri := pkg.artifactsUri, relBase := relBase })

/-- The verify response payload. -/
structure VerifyResult where
  pkgId : String
  storedChecksum : String
  recomputedChecksum : String
  «matches» : Bool
  ledgerTxId : Option String
deriving DecidableEq

/-- Prefix test on strings (used for directory existence). -/
def strStartsWith (s pre : String) : Bool :=
  startsWithChars pre.data s.data

/-- `fs.existsSync(folder)` for a directory: some stored file lives under
the folder. -/
def dirExists (fs : SimFS) (folder : String) : Bool :=
  fs.entries.any (fun e => strStartsWith e.1 (folder ++ "/"))

/-- JavaScript `s.replace(pattern, repl)` with a string pattern replaces
only the first occurrence. -/
def replaceFirstChars (pat repl : List Char) : List Char → List Char
  | [] => []
  | c :: rest =>
      if startsWithChars pat (c :: rest) then repl ++ (c :: rest).drop pat.length
      else c :: replaceFirstChars pat repl rest

/-- JavaScript `s.replace(pat, repl)` on strings (first occurrence). -/
def replaceFirst (s pat repl : String) : String :=
  ⟨replaceFirstChars pat.data repl.data s.data⟩

/-- `SELECT * FROM MRVPackage WHERE id = $1`. -/
def findPackage (packages : List MRVPackageRow) (pkgId : String) :
    Option MRVPackageRow :=
  packages.find? (fun p => p.id == pkgId)

/-- `fileKeys.map(k => sha256OfFile(join(cwd, storage, k)))`: hash each
listed file in order; the first missing file aborts the whole map. -/
def hashFiles (hash : FileContent → String) (fs : SimFS) :
    List String → Except String (List String)
  | [] => .ok []
  | k :: ks =>
      match sha256OfFile hash fs (storPath k) with
      | .error e => .error e
      | .ok h =>
          match hashFiles hash fs ks with
          | .error e => .error e
          | .ok hs => .ok (h :: hs)

/-- `GET /mrv/:pkgId/verify`: load the package row, strip the `file`
scheme off the artifacts location, check the folder and `checksums.json`
exist, re-hash every listed file from disk in sorted key order, and
compare the recomputed aggregate with the stored checksum. -/
def verifyMRVPackage (hash : FileContent → String) (st : MRVState)
    (pkgId : String) : Except String VerifyResult :=
  match findPackage st.packages pkgId with
  | none => .error "Package not found"
  | some pkg =>
    let folder := replaceFirst pkg.artifactsUri "file://" ""
    if dirExists st.fs folder then
      match fsLookup st.fs.entries (folder ++ "/checksums.json") with
      | none => .error "Checksums file not found"
      | some (.text _) => .error "Unexpected token in checksums file"
      | some (.checks files) =>
          let fileKeys := sortKeys (jsObjectKeys files)
          match hashFiles hash st.fs fileKeys with
          | .error e => .error e
          | .ok hs =>
              let recomputed := hash (.text (String.intercalate "|" hs))
              .ok { pkgId := pkgId, storedChecksum := pkg.checksum
                    recomputedChecksum := recomputed
                    «matches» := pkg.checksum == recomputed
                    ledgerTxId := pkg.ledgerTxId }
    else .error "Package files not found"

/-- `anchorHash(pkgId, hashHex)` from the ledger service: fabricate a
simulated transaction id and record it on the package row. -/
def anchorHash (now : String) (st : MRVState) (pkgId hashHex : String) :
    MRVState × String :=
  let txId := "sim-" ++ now ++ "-" ++ hashHex.take 10
  ({ st with packages := st.packages.map (fun p =>
      if p.id = pkgId then { p with ledgerTxId := some txId } else p) }, txId)

/-- The body of the export route response. -/
inductive RouteBody where
  | exported (pkgId : String) (hashHex : String) (artifactsUri : String)
      (ledgerTxId : String)
  | failed (error : String)
deriving DecidableEq

/-- `POST /plots/:plotId/mrv/export`: run the export, anchor the hash,
answer 200 with the payload; every thrown error is answered with HTTP
status 500 and the error message. -/
def exportRoute (hash : FileContent → String) (B : ArtifactBuilders)
    (now : String) (st : MRVState) (plotId ts : String) :
    MRVState × ℕ × RouteBody :=
  match exportMRVPackage hash B st plotId ts with
  | (st1, .ok r) =>
      let a := anchorHash now st1 r.pkgId r.topHash
      (a.1, 200, .exported r.pkgId r.topHash r.artifactsUri a.2)
  | (st1, .error e) => (st1, 500, .failed e)

/-! ### Concrete MRV fixtures -/

/-- A simple injective stand-in for the hash function in concrete runs. -/
def hashLen : FileContent → String
  | .text s => "t" ++ toString s.length
  | .checks l => "c" ++ toString l.length

/-- Constant artifact serialisers for concrete runs. -/
def B0 : ArtifactBuilders :=
  ⟨fun _ _ => "inputs", fun _ _ => "outputs", fun _ => "manifest", fun _ _ => "summary"⟩

/-- A one-plot, one-tree state with an empty storage area. -/
def st0 : MRVState :=
  { plots := fun id => if id = "p1" then some ⟨"p1", "Plot One", "zone", "geo"⟩ else none
    treesOf := fun _ => [⟨"tr1", some 100, some 47⟩]
    runOf := fun _ => none
    packages := []
    nextPkgId := "pkg1"
    fs := { entries := [], writeOk := fun _ => true } }

/-- A state with no plots at all. -/
def stEmpty : MRVState :=
  { plots := fun _ => none
    treesOf := fun _ => []
    runOf := fun _ => none
    packages := []
    nextPkgId := "pkg1"
    fs := { entries := [], writeOk := fun _ => true } }

/-- The concrete export run used by witnesses. -/
def exportW : MRVState × Except String ExportResult :=
  exportMRVPackage hashLen B0 st0 "p1" "ts"

/-- The result record of the concrete export run. -/
def exportResW : ExportResult :=
  (exportW.2.toOption).getD ⟨"", "", "", ""⟩

/-- A stored package row for the digest-independence witness. -/
def pkgW : MRVPackageRow :=
  { id := "pkg1", runId := "r", schemaVersion := "1.0"
    artifactsUri := "file:///app/storage/packages/x"
    checksum := "c", ledgerTxId := none }

/-- A state whose `checksums.json` records digest value `x` for file `a`. -/
def stW1 : MRVState :=
  { plots := fun _ => none
    treesOf := fun _ => []
    runOf := fun _ => none
    packages := [pkgW]
    nextPkgId := "n"
    fs := { entries := [("/app/storage/packages/x/checksums.json", .checks [("a", "x")]),
              ("/app/storage/a", .text "A")]
            writeOk := fun _ => true } }

/-- The same state except the recorded digest value is `y`. -/
def stW2 : MRVState :=
  { plots := fun _ => none
    treesOf := fun _ => []
    runOf := fun _ => none
    packages := [pkgW]
    nextPkgId := "n"
    fs := { entries := [("/app/storage/packages/x/checksums.json", .checks [("a", "y")]),
              ("/app/storage/a", .text "A")]
            writeOk := fun _ => true } }

/-- C5: for all biomassKg ≥ 0, `calculateCredits` returns
`creditsGenerated = round(biomassKg × 0.47 × 3.67 / 1000, 3)`, with kg
values rounded to 2 decimals and tons/credits to 3 decimals; in
particular `calculateCredits 1000` returns `carbonStockKg = 470`,
`co2EquivalentKg = 1724.9` and `creditsGenerated = 1.725`. -/
theorem calculateCredits_spec (b : ℚ) (hb : 0 ≤ b) :
    (calculateCredits b).creditsGenerated = round3 (b * 0.47 * 3.67 / 1000) ∧
    (calculateCredits b).carbonStockKg = round2 (b * 0.47) ∧
    (calculateCredits b).carbonStockTons = round3 (b * 0.47 / 1000) ∧
    (calculateCredits b).co2EquivalentKg = round2 (b * 0.47 * 3.67) ∧
    (calculateCredits b).co2EquivalentTons = round3 (b * 0.47 * 3.67 / 1000) ∧
    (calculateCredits 1000).carbonStockKg = 470 ∧
    (calculateCredits 1000).co2EquivalentKg = 1724.9 ∧
    (calculateCredits 1000).creditsGenerated = 1.725 := by
  refine ⟨rfl, rfl, rfl, rfl, rfl, ?_, ?_, ?_⟩ <;>
    norm_num [calculateCredits, round2, round3, CARBON_FRACTION, CO2_MOLECULAR_RATIO, round_eq]

/-- Witness for C5 at `biomassKg = 1000`. -/
theorem calculateCredits_spec_witness :
    (0 : ℚ) ≤ 1000 ∧
      (calculateCredits 1000).creditsGenerated =
        round3 ((1000 : ℚ) * 0.47 * 3.67 / 1000) :=
  ⟨by norm_num, (calculateCredits_spec 1000 (by norm_num)).1⟩

/-! ## Helper lemmas about the estimator -/

@[simp] theorem finishEstimate_biomass (sd : Option SpeciesData) (raw : ℝ)
    (meth : String) (conf : ℝ) :
    (finishEstimate sd raw meth conf).biomass_estimate_kg = round2 (max raw 0.1) := rfl

@[simp] theorem finishEstimate_carbon (sd : Option SpeciesData) (raw : ℝ)
    (meth : String) (conf : ℝ) :
    (finishEstimate sd raw meth conf).carbon_sequestration_kg =
      round2 (max raw 0.1 * 0.47) := rfl

@[simp] theorem finishEstimate_co2 (sd : Option SpeciesData) (raw : ℝ)
    (meth : String) (conf : ℝ) :
    (finishEstimate sd raw meth conf).co2_equivalent_kg =
      round2 (max raw 0.1 * 0.47 * 3.67) := rfl

@[simp] theorem finishEstimate_uncertainty (sd : Option SpeciesData) (raw : ℝ)
    (meth : String) (conf : ℝ) :
    (finishEstimate sd raw meth conf).uncertainty_pct =
      round1 (if sd.isSome then
          Real.sqrt (getMethodUncertainty meth ^ 2 + speciesUncertaintyOf sd ^ 2)
        else getMethodUncertainty meth) := rfl

@[simp] theorem finishEstimate_method (sd : Option SpeciesData) (raw : ℝ)
    (meth : String) (conf : ℝ) :
    (finishEstimate sd raw meth conf).method = meth := rfl

@[simp] theorem finishEstimate_confidence (sd : Option SpeciesData) (raw : ℝ)
    (meth : String) (conf : ℝ) :
    (finishEstimate sd raw meth conf).confidence_pct = conf := rfl

@[simp] theorem finishEstimate_species (sd : Option SpeciesData) (raw : ℝ)
    (meth : String) (conf : ℝ) :
    (finishEstimate sd raw meth conf).species_data = sd := rfl

theorem estimateBiomass_full (db : String → Option SpeciesData) (m : TreeMeasurements)
    (h1 : optPos m.dbh_cm) (h2 : optPos m.height_meters) :
    estimateBiomass db m = .ok (finishEstimate (resolveSpecies db m)
      (allometricAOf (resolveSpecies db m) *
        (woodDensityOf (resolveSpecies db m) * (m.dbh_cm.getD 0 / 100) ^ 2 *
          m.height_meters.getD 0) ^ allometricBOf (resolveSpecies db m))
      (fullAllometricLabel (resolveSpecies db m) m.species_code)
      (if (resolveSpecies db m).isSome then
        100 - speciesUncertaintyOf (resolveSpecies db m) else 75)) := by
  simp only [estimateBiomass]
  rw [if_pos ⟨h1, h2⟩]

theorem estimateBiomass_crown (db : String → Option SpeciesData) (m : TreeMeasurements)
    (hnod : ¬ optPos m.dbh_cm) (h2 : optPos m.height_meters)
    (h3 : optPos m.canopy_cover_m2) :
    estimateBiomass db m = .ok (finishEstimate (resolveSpecies db m)
      (allometricAOf (resolveSpecies db m) *
        (woodDensityOf (resolveSpecies db m) *
          (Real.sqrt (m.canopy_cover_m2.getD 0 / Real.pi) * 2 * 80 / 100) ^ 2 *
          m.height_meters.getD 0) ^ allometricBOf (resolveSpecies db m))
      "allometric_crown_estimated" 60) := by
  simp only [estimateBiomass]
  rw [if_neg (fun h => hnod h.1), if_pos ⟨h2, h3⟩]

theorem estimateBiomass_height (db : String → Option SpeciesData) (m : TreeMeasurements)
    (hnod : ¬ optPos m.dbh_cm) (hnoc : ¬ optPos m.canopy_cover_m2)
    (h : optPos m.height_meters) :
    estimateBiomass db m = .ok (finishEstimate (resolveSpecies db m)
      (m.height_meters.getD 0 ^ (2.5 : ℝ) * woodDensityOf (resolveSpecies db m) * 2.5)
      "height_only_estimation" 40) := by
  simp only [estimateBiomass]
  rw [if_neg (fun h => hnod h.1), if_neg (fun h => hnoc h.2), if_pos h]

theorem estimateBiomass_canopy (db : String → Option SpeciesData) (m : TreeMeasurements)
    (hnoh : ¬ optPos m.height_meters) (hc : optPos m.canopy_cover_m2) :
    estimateBiomass db m = .ok (finishEstimate (resolveSpecies db m)
      (m.canopy_cover_m2.getD 0 * woodDensityOf (resolveSpecies db m) * 15)
      "crown_area_estimation" 35) := by
  simp only [estimateBiomass]
  rw [if_neg (fun h => hnoh h.2), if_neg (fun h => hnoh h.1), if_neg hnoh, if_pos hc]

theorem estimateBiomass_insufficient (db : String → Option SpeciesData)
    (m : TreeMeasurements) (hnoh : ¬ optPos m.height_meters)
    (hnoc : ¬ optPos m.canopy_cover_m2) :
    estimateBiomass db m = .error "Insufficient measurements for biomass estimation" := by
  simp only [estimateBiomass]
  rw [if_neg (fun h => hnoh h.2), if_neg (fun h => hnoh h.1), if_neg hnoh, if_neg hnoc]

theorem estimateBiomass_ok_shape (db : String → Option SpeciesData)
    (m : TreeMeasurements) (e : BiomassEstimate)
    (h : estimateBiomass db m = .ok e) :
    ∃ raw meth conf, e = finishEstimate (resolveSpecies db m) raw meth conf := by
  simp only [estimateBiomass] at h
  split at h
  · exact absurd h (by simp)
  · next raw meth conf _ =>
      simp only [Except.ok.injEq] at h
      exact ⟨raw, meth, conf, h.symm⟩

theorem round2_clamp_ge {x : ℝ} (h : (0.1 : ℝ) ≤ x) : (0.1 : ℝ) ≤ round2 x := by
  have h1 : (10 : ℤ) ≤ round (x * 100) := by
    rw [round_eq]
    rw [Int.le_floor]
    push_cast
    linarith
  rw [round2]
  have h2 : ((10 : ℤ) : ℝ) ≤ ((round (x * 100) : ℤ) : ℝ) := Int.cast_le.mpr h1
  push_cast at h2
  linarith

/-- Concrete estimator run: a canopy-only tree of 10 square meters against
the empty species table. -/
theorem estimate_canopy10 :
    estimateBiomass dbNone (canopyOnly 10) = .ok canopyEstimate10 := by
  have h := estimateBiomass_canopy dbNone (canopyOnly 10)
    (by simp [canopyOnly, optPos]) (by norm_num [canopyOnly, optPos])
  simpa [canopyOnly, canopyEstimate10, resolveSpecies, woodDensityOf, jsOr] using h

/-! ## Claims C1 and C3 -/

/-- C1: method selection in `estimateBiomass` is a strict priority ladder
evaluated in order with no fallback past the first applicable branch: full
allometric when dbh and height are positive; otherwise crown-estimated DBH
when height and canopy cover are positive; otherwise height-only when
height is positive; otherwise canopy-only when canopy cover is positive;
and when none of the four preconditions holds the estimator fails with the
insufficient-measurements error and produces no estimate. -/
theorem estimateBiomass_method_ladder (db : String → Option SpeciesData)
    (m : TreeMeasurements) :
    (optPos m.dbh_cm ∧ optPos m.height_meters →
      methodOf (estimateBiomass db m) =
        .ok (fullAllometricLabel (resolveSpecies db m) m.species_code)) ∧
    (¬(optPos m.dbh_cm ∧ optPos m.height_meters) →
      optPos m.height_meters ∧ optPos m.canopy_cover_m2 →
      methodOf (estimateBiomass db m) = .ok "allometric_crown_estimated") ∧
    (¬(optPos m.dbh_cm ∧ optPos m.height_meters) →
      ¬(optPos m.height_meters ∧ optPos m.canopy_cover_m2) →
      optPos m.height_meters →
      methodOf (estimateBiomass db m) = .ok "height_only_estimation") ∧
    (¬(optPos m.dbh_cm ∧ optPos m.height_meters) →
      ¬(optPos m.height_meters ∧ optPos m.canopy_cover_m2) →
      ¬ optPos m.height_meters → optPos m.canopy_cover_m2 →
      methodOf (estimateBiomass db m) = .ok "crown_area_estimation") ∧
    (¬(optPos m.dbh_cm ∧ optPos m.height_meters) →
      ¬(optPos m.height_meters ∧ optPos m.canopy_cover_m2) →
      ¬ optPos m.height_meters → ¬ optPos m.canopy_cover_m2 →
      estimateBiomass db m =
        .error "Insufficient measurements for biomass estimation") := by
  refine ⟨?_, ?_, ?_, ?_, ?_⟩
  · rintro ⟨h1, h2⟩
    rw [methodOf, estimateBiomass_full db m h1 h2]
    rfl
  · rintro hno ⟨h2, h3⟩
    have hnod : ¬ optPos m.dbh_cm := fun hd => hno ⟨hd, h2⟩
    rw [methodOf, estimateBiomass_crown db m hnod h2 h3]
    rfl
  · intro hno1 hno2 h
    have hnod : ¬ optPos m.dbh_cm := fun hd => hno1 ⟨hd, h⟩
    have hnoc : ¬ optPos m.canopy_cover_m2 := fun hc => hno2 ⟨h, hc⟩
    rw [methodOf, estimateBiomass_height db m hnod hnoc h]
    rfl
  · intro _ _ hnoh hc
    rw [methodOf, estimateBiomass_canopy db m hnoh hc]
    rfl
  · intro _ _ hnoh hnoc
    exact estimateBiomass_insufficient db m hnoh hnoc

/-- Witness for C1: a canopy-only input takes the canopy-only branch. -/
theorem estimateBiomass_method_ladder_witness :
    methodOf (estimateBiomass dbNone (canopyOnly 10)) = .ok "crown_area_estimation" :=
  (estimateBiomass_method_ladder dbNone (canopyOnly 10)).2.2.2.1
    (by simp [canopyOnly, optPos]) (by simp [canopyOnly, optPos])
    (by simp [canopyOnly, optPos]) (by norm_num [canopyOnly, optPos])

/-- C3: every successful estimate has biomass at least 0.1 kg, no matter
how small the raw computed value is. -/
theorem estimateBiomass_min_biomass (db : String → Option SpeciesData)
    (m : TreeMeasurements) (e : BiomassEstimate)
    (h : estimateBiomass db m = .ok e) :
    (0.1 : ℝ) ≤ e.biomass_estimate_kg := by
  obtain ⟨raw, meth, conf, rfl⟩ := estimateBiomass_ok_shape db m e h
  rw [finishEstimate_biomass]
  exact round2_clamp_ge (le_max_right _ _)

/-- Witness for C3 at a concrete canopy-only input. -/
theorem estimateBiomass_min_biomass_witness :
    estimateBiomass dbNone (canopyOnly 10) = .ok canopyEstimate10 ∧
      (0.1 : ℝ) ≤ canopyEstimate10.biomass_estimate_kg :=
  ⟨estimate_canopy10,
    estimateBiomass_min_biomass dbNone (canopyOnly 10) _ estimate_canopy10⟩

/-! ## Substring and method-uncertainty lemmas -/

theorem startsWithChars_self_append (xs ys : List Char) :
    startsWithChars xs (xs ++ ys) = true := by
  induction xs with
  | nil => rfl
  | cons a as ih => simp [startsWithChars, ih]

theorem hasSubChars_self_append (needle rest : List Char) :
    hasSubChars needle (needle ++ rest) = true := by
  cases needle with
  | nil =>
      cases rest with
      | nil => rfl
      | cons c cs => simp [hasSubChars, startsWithChars]
  | cons n ns => simp [hasSubChars, startsWithChars, startsWithChars_self_append]

theorem strIncludes_append_left (p rest : String) :
    strIncludes (p ++ rest) p = true := by
  rw [strIncludes, String.data_append]
  exact hasSubChars_self_append _ _

theorem gmu_species (code : String) :
    getMethodUncertainty ("allometric_species_" ++ code) = 15 := by
  rw [getMethodUncertainty, strIncludes_append_left]
  simp

theorem gmu_generic : getMethodUncertainty "allometric_generic" = 20 := by
  have h1 : strIncludes "allometric_generic" "allometric_species_" = false := by decide
  have h2 : strIncludes "allometric_generic" "allometric_generic" = true := by decide
  rw [getMethodUncertainty, h1, h2]
  simp

theorem gmu_crown_estimated :
    getMethodUncertainty "allometric_crown_estimated" = 25 := by
  have h1 : strIncludes "allometric_crown_estimated" "allometric_species_" = false := by
    decide
  have h2 : strIncludes "allometric_crown_estimated" "allometric_generic" = false := by
    decide
  have h3 : strIncludes "allometric_crown_estimated" "allometric_crown_estimated" = true := by
    decide
  rw [getMethodUncertainty, h1, h2, h3]
  simp

theorem gmu_height_only : getMethodUncertainty "height_only_estimation" = 35 := by
  have h1 : strIncludes "height_only_estimation" "allometric_species_" = false := by decide
  have h2 : strIncludes "height_only_estimation" "allometric_generic" = false := by decide
  have h3 : strIncludes "height_only_estimation" "allometric_crown_estimated" = false := by
    decide
  have h4 : strIncludes "height_only_estimation" "height_only_estimation" = true := by decide
  rw [getMethodUncertainty, h1, h2, h3, h4]
  simp

theorem gmu_crown_area : getMethodUncertainty "crown_area_estimation" = 40 := by
  have h1 : strIncludes "crown_area_estimation" "allometric_species_" = false := by decide
  have h2 : strIncludes "crown_area_estimation" "allometric_generic" = false := by decide
  have h3 : strIncludes "crown_area_estimation" "allometric_crown_estimated" = false := by
    decide
  have h4 : strIncludes "crown_area_estimation" "height_only_estimation" = false := by decide
  have h5 : strIncludes "crown_area_estimation" "crown_area_estimation" = true := by decide
  rw [getMethodUncertainty, h1, h2, h3, h4, h5]
  simp

/-! ## Claim C7 -/

/-- C7: the uncertainty of every successful estimate is the per-method
base uncertainty (15 for species-specific allometric, 20 generic, 25
crown-estimated, 35 height-only, 40 canopy-only, 30 when no table key
matches the label) combined with the species uncertainty by
root-sum-of-squares when species data resolved, else the base value
alone, rounded to 1 decimal place. -/
theorem estimateBiomass_uncertainty_spec :
    (∀ (db : String → Option SpeciesData) (m : TreeMeasurements) (e : BiomassEstimate),
      estimateBiomass db m = .ok e →
      e.uncertainty_pct =
        round1 (if (resolveSpecies db m).isSome then
            Real.sqrt (getMethodUncertainty e.method ^ 2 +
              speciesUncertaintyOf (resolveSpecies db m) ^ 2)
          else getMethodUncertainty e.method)) ∧
    (∀ code, getMethodUncertainty ("allometric_species_" ++ code) = 15) ∧
    getMethodUncertainty "allometric_generic" = 20 ∧
    getMethodUncertainty "allometric_crown_estimated" = 25 ∧
    getMethodUncertainty "height_only_estimation" = 35 ∧
    getMethodUncertainty "crown_area_estimation" = 40 ∧
    (∀ s, strIncludes s "allometric_species_" = false →
      strIncludes s "allometric_generic" = false →
      strIncludes s "allometric_crown_estimated" = false →
      strIncludes s "height_only_estimation" = false →
      strIncludes s "crown_area_estimation" = false →
      getMethodUncertainty s = 30) := by
  refine ⟨?_, gmu_species, gmu_generic, gmu_crown_estimated, gmu_height_only,
    gmu_crown_area, ?_⟩
  · intro db m e h
    obtain ⟨raw, meth, conf, rfl⟩ := estimateBiomass_ok_shape db m e h
    rw [finishEstimate_uncertainty, finishEstimate_method]
  · intro s h1 h2 h3 h4 h5
    rw [getMethodUncertainty, h1, h2, h3, h4, h5]
    simp

/-- Witness for C7 at the concrete canopy-only input. -/
theorem estimateBiomass_uncertainty_spec_witness :
    estimateBiomass dbNone (canopyOnly 10) = .ok canopyEstimate10 ∧
      canopyEstimate10.uncertainty_pct =
        round1 (if (resolveSpecies dbNone (canopyOnly 10)).isSome then
            Real.sqrt (getMethodUncertainty canopyEstimate10.method ^ 2 +
              speciesUncertaintyOf (resolveSpecies dbNone (canopyOnly 10)) ^ 2)
          else getMethodUncertainty canopyEstimate10.method) :=
  ⟨estimate_canopy10,
    estimateBiomass_uncertainty_spec.1 dbNone (canopyOnly 10) _ estimate_canopy10⟩

/-! ## Claim C2 -/

/-- C2 (amended): when dbh and height are positive, `estimateBiomass`
computes the raw biomass `a × (ρ × (dbh/100)² × height)^b`, substituting
the defaults ρ = 0.6, a = 0.0673, b = 0.976 when no species data
resolves; the returned biomass, carbon and CO2e are derived from the
0.1 kg-clamped value (biomass, then ×0.47, then ×3.67), each rounded to
2 decimal places, and confidence is 100 minus the species uncertainty
when species data resolved, else 75. -/
theorem estimateBiomass_full_allometric_spec (db : String → Option SpeciesData)
    (m : TreeMeasurements) (dbh h : ℝ)
    (hdbh : m.dbh_cm = some dbh) (hh : m.height_meters = some h)
    (hdp : 0 < dbh) (hhp : 0 < h) :
    ∃ e, estimateBiomass db m = .ok e ∧
      e.biomass_estimate_kg =
        round2 (max (fullAllometricRaw (resolveSpecies db m) dbh h) 0.1) ∧
      e.carbon_sequestration_kg =
        round2 (max (fullAllometricRaw (resolveSpecies db m) dbh h) 0.1 * 0.47) ∧
      e.co2_equivalent_kg =
        round2 (max (fullAllometricRaw (resolveSpecies db m) dbh h) 0.1 * 0.47 * 3.67) ∧
      e.confidence_pct =
        (if (resolveSpecies db m).isSome then
          100 - speciesUncertaintyOf (resolveSpecies db m) else 75) ∧
      (resolveSpecies db m = none →
        allometricAOf (resolveSpecies db m) = 0.0673 ∧
        woodDensityOf (resolveSpecies db m) = 0.6 ∧
        allometricBOf (resolveSpecies db m) = 0.976) := by
  have h1 : optPos m.dbh_cm := by rw [hdbh]; exact hdp
  have h2 : optPos m.height_meters := by rw [hh]; exact hhp
  have heq := estimateBiomass_full db m h1 h2
  rw [hdbh, hh] at heq
  refine ⟨_, heq, ?_, ?_, ?_, ?_, ?_⟩
  · rw [finishEstimate_biomass, fullAllometricRaw]
    simp
  · rw [finishEstimate_carbon, fullAllometricRaw]
    simp
  · rw [finishEstimate_co2, fullAllometricRaw]
    simp
  · rw [finishEstimate_confidence]
  · intro hnone
    rw [hnone]
    refine ⟨rfl, rfl, rfl⟩

/-- Witness for C2 (amended) at dbh = 30 cm, height = 10 m against the
empty species table. -/
theorem estimateBiomass_full_allometric_spec_witness :
    (0 : ℝ) < 30 ∧ (0 : ℝ) < 10 ∧
      ∃ e, estimateBiomass dbNone ⟨some 10, some 30, none, none⟩ = .ok e ∧
        e.biomass_estimate_kg =
          round2 (max (fullAllometricRaw
            (resolveSpecies dbNone ⟨some 10, some 30, none, none⟩) 30 10) 0.1) ∧
        e.carbon_sequestration_kg =
          round2 (max (fullAllometricRaw
            (resolveSpecies dbNone ⟨some 10, some 30, none, none⟩) 30 10) 0.1 * 0.47) ∧
        e.co2_equivalent_kg =
          round2 (max (fullAllometricRaw
            (resolveSpecies dbNone ⟨some 10, some 30, none, none⟩) 30 10) 0.1 * 0.47 * 3.67) ∧
        e.confidence_pct =
          (if (resolveSpecies dbNone ⟨some 10, some 30, none, none⟩).isSome then
            100 - speciesUncertaintyOf (resolveSpecies dbNone ⟨some 10, some 30, none, none⟩)
          else 75) ∧
        (resolveSpecies dbNone ⟨some 10, some 30, none, none⟩ = none →
          allometricAOf (resolveSpecies dbNone ⟨some 10, some 30, none, none⟩) = 0.0673 ∧
          woodDensityOf (resolveSpecies dbNone ⟨some 10, some 30, none, none⟩) = 0.6 ∧
          allometricBOf (resolveSpecies dbNone ⟨some 10, some 30, none, none⟩) = 0.976) :=
  ⟨by norm_num, by norm_num,
    estimateBiomass_full_allometric_spec dbNone ⟨some 10, some 30, none, none⟩ 30 10
      rfl rfl (by norm_num) (by norm_num)⟩

/-- C2 counterexample: at dbh = 0.1 cm and height = 0.1 m the raw
formula value rounds to 0, but the estimator returns 0.1 kg because of
the clamp applied before rounding, so the returned biomass is not the
rounded formula value claimed. -/
theorem estimateBiomass_formula_counterexample :
    estimateBiomass dbNone tinyTree = .ok tinyEstimate ∧
      tinyEstimate.biomass_estimate_kg = 0.1 ∧
      round2 tinyRaw = 0 ∧
      tinyEstimate.biomass_estimate_kg ≠ round2 tinyRaw := by
  have hbase : (0 : ℝ) < 0.6 * ((0.1 : ℝ) / 100) ^ 2 * 0.1 := by norm_num
  have hrp_le : (0.6 * ((0.1 : ℝ) / 100) ^ 2 * 0.1) ^ (0.976 : ℝ) ≤
      (0.6 * ((0.1 : ℝ) / 100) ^ 2 * 0.1) ^ ((1 : ℝ) / 2) :=
    Real.rpow_le_rpow_of_exponent_ge hbase (by norm_num) (by norm_num)
  have hsq : (0.6 * ((0.1 : ℝ) / 100) ^ 2 * 0.1) ^ ((1 : ℝ) / 2) =
      Real.sqrt (0.6 * ((0.1 : ℝ) / 100) ^ 2 * 0.1) :=
    (Real.rpow_natCast _ _ ▸ (Real.sqrt_eq_rpow _).symm : _)
  have hs_le : Real.sqrt (0.6 * ((0.1 : ℝ) / 100) ^ 2 * 0.1) ≤ 0.00025 := by
    have hx : (0.6 * ((0.1 : ℝ) / 100) ^ 2 * 0.1) ≤ (0.00025 : ℝ) ^ 2 := by norm_num
    calc Real.sqrt (0.6 * ((0.1 : ℝ) / 100) ^ 2 * 0.1) ≤
          Real.sqrt ((0.00025 : ℝ) ^ 2) := Real.sqrt_le_sqrt hx
      _ = 0.00025 := Real.sqrt_sq (by norm_num)
  have hraw_pos : 0 < tinyRaw := by
    rw [tinyRaw]
    exact mul_pos (by norm_num) (Real.rpow_pos_of_pos hbase _)
  have hraw_le : tinyRaw ≤ 0.0000169 := by
    rw [tinyRaw]
    have h1 : (0.6 * ((0.1 : ℝ) / 100) ^ 2 * 0.1) ^ (0.976 : ℝ) ≤ 0.00025 :=
      hrp_le.trans (hsq ▸ hs_le)
    nlinarith [h1]
  have hround0 : round2 tinyRaw = 0 := by
    have hz : round (tinyRaw * 100) = 0 := by
      rw [round_eq_zero_iff]
      constructor
      · linarith
      · linarith
    rw [round2, hz]
    norm_num
  have hestimate : estimateBiomass dbNone tinyTree = .ok tinyEstimate := by
    have h := estimateBiomass_full dbNone tinyTree (by norm_num [tinyTree, optPos])
      (by norm_num [tinyTree, optPos])
    simpa [tinyTree, tinyEstimate, tinyRaw, resolveSpecies, allometricAOf,
      woodDensityOf, allometricBOf, jsOr, fullAllometricLabel] using h
  have hclamp : max tinyRaw 0.1 = 0.1 := max_eq_right (by linarith)
  have hbio : tinyEstimate.biomass_estimate_kg = 0.1 := by
    rw [tinyEstimate, finishEstimate_biomass, hclamp]
    rw [round2]
    norm_num [round_eq]
  refine ⟨hestimate, hbio, hround0, ?_⟩
  rw [hbio, hround0]
  norm_num

/-! ## Plot aggregator lemmas -/

theorem foldl_processTree_spec (db : String → Option SpeciesData)
    (rows : List DbTreeRow) (acc : PlotAcc) :
    (rows.foldl (processTree db) acc).estimates =
        acc.estimates ++ successfulEstimates db rows ∧
      (rows.foldl (processTree db) acc).estimatedTrees =
        acc.estimatedTrees + (successfulEstimates db rows).length ∧
      (rows.foldl (processTree db) acc).totalBiomass =
        acc.totalBiomass +
          ((successfulEstimates db rows).map (fun p => p.2.biomass_estimate_kg)).sum ∧
      (rows.foldl (processTree db) acc).totalCarbon =
        acc.totalCarbon +
          ((successfulEstimates db rows).map (fun p => p.2.carbon_sequestration_kg)).sum ∧
      (rows.foldl (processTree db) acc).totalCo2 =
        acc.totalCo2 +
          ((successfulEstimates db rows).map (fun p => p.2.co2_equivalent_kg)).sum ∧
      (rows.foldl (processTree db) acc).totalUncertainty =
        acc.totalUncertainty +
          ((successfulEstimates db rows).map (fun p => p.2.uncertainty_pct)).sum := by
  induction rows generalizing acc with
  | nil => simp [successfulEstimates]
  | cons t ts ih =>
      rw [List.foldl_cons]
      cases hest : estimateBiomass db t.measurements with
      | error err =>
          have hp : processTree db acc t = acc := by
            simp only [processTree, hest]
          rw [hp]
          have h2 := ih acc
          simpa [successfulEstimates, List.filterMap_cons, hest] using h2
      | ok e =>
          have hp : processTree db acc t =
              { estimates := acc.estimates ++ [(t.id, e)]
                totalBiomass := acc.totalBiomass + e.biomass_estimate_kg
                totalCarbon := acc.totalCarbon + e.carbon_sequestration_kg
                totalCo2 := acc.totalCo2 + e.co2_equivalent_kg
                totalUncertainty := acc.totalUncertainty + e.uncertainty_pct
                estimatedTrees := acc.estimatedTrees + 1 } := by
            simp only [processTree, hest]
          rw [hp]
          obtain ⟨g1, g2, g3, g4, g5, g6⟩ := ih
            { estimates := acc.estimates ++ [(t.id, e)]
              totalBiomass := acc.totalBiomass + e.biomass_estimate_kg
              totalCarbon := acc.totalCarbon + e.carbon_sequestration_kg
              totalCo2 := acc.totalCo2 + e.co2_equivalent_kg
              totalUncertainty := acc.totalUncertainty + e.uncertainty_pct
              estimatedTrees := acc.estimatedTrees + 1 }
          refine ⟨?_, ?_, ?_, ?_, ?_, ?_⟩
          · rw [g1]
            simp [successfulEstimates, List.filterMap_cons, hest]
          · rw [g2]
            simp only [successfulEstimates, List.filterMap_cons, hest]
            simp [Nat.add_assoc, Nat.add_comm 1]
          · rw [g3]
            simp only [successfulEstimates, List.filterMap_cons, hest]
            simp
            ring
          · rw [g4]
            simp only [successfulEstimates, List.filterMap_cons, hest]
            simp
            ring
          · rw [g5]
            simp only [successfulEstimates, List.filterMap_cons, hest]
            simp
            ring
          · rw [g6]
            simp only [successfulEstimates, List.filterMap_cons, hest]
            simp
            ring

theorem estimatePlotBiomass_spec (db : String → Option SpeciesData)
    (rows : List DbTreeRow) :
    (estimatePlotBiomass db rows).trees = successfulEstimates db rows ∧
      (estimatePlotBiomass db rows).totals.total_trees =
        (successfulEstimates db rows).length ∧
      (estimatePlotBiomass db rows).totals.total_biomass_kg =
        round2 (((successfulEstimates db rows).map
          (fun p => p.2.biomass_estimate_kg)).sum) ∧
      (estimatePlotBiomass db rows).totals.total_carbon_kg =
        round2 (((successfulEstimates db rows).map
          (fun p => p.2.carbon_sequestration_kg)).sum) ∧
      (estimatePlotBiomass db rows).totals.total_co2_equivalent_kg =
        round2 (((successfulEstimates db rows).map
          (fun p => p.2.co2_equivalent_kg)).sum) ∧
      (estimatePlotBiomass db rows).totals.average_uncertainty_pct =
        round1 (if 0 < (successfulEstimates db rows).length then
            ((successfulEstimates db rows).map (fun p => p.2.uncertainty_pct)).sum /
              ((successfulEstimates db rows).length : ℝ)
          else 0) := by
  obtain ⟨h1, h2, h3, h4, h5, h6⟩ := foldl_processTree_spec db rows ⟨[], 0, 0, 0, 0, 0⟩
  refine ⟨?_, ?_, ?_, ?_, ?_, ?_⟩ <;>
    simp [estimatePlotBiomass, h1, h2, h3, h4, h5, h6]

/-! ### Concrete aggregator evaluations -/

theorem estimate_canopy20 :
    estimateBiomass dbNone (canopyOnly 20) = .ok canopyEstimate20 := by
  have h := estimateBiomass_canopy dbNone (canopyOnly 20)
    (by simp [canopyOnly, optPos]) (by norm_num [canopyOnly, optPos])
  simpa [canopyOnly, canopyEstimate20, resolveSpecies, woodDensityOf, jsOr] using h

theorem canopyRow_measurements (id : String) (c : ℝ) :
    (canopyRow id c).measurements = canopyOnly c := rfl

theorem canopyRow_id (id : String) (c : ℝ) : (canopyRow id c).id = id := rfl

theorem estimate_empty (id : String) :
    estimateBiomass dbNone (emptyRow id).measurements =
      .error "Insufficient measurements for biomass estimation" :=
  estimateBiomass_insufficient _ _
    (by simp [emptyRow, DbTreeRow.measurements, optPos])
    (by simp [emptyRow, DbTreeRow.measurements, optPos])

theorem successfulEstimates_threeTreePlot :
    successfulEstimates dbNone threeTreePlot =
      [("t1", canopyEstimate10), ("t3", canopyEstimate20)] := by
  simp only [successfulEstimates, threeTreePlot, List.filterMap_cons,
    canopyRow_measurements, canopyRow_id, estimate_canopy10, estimate_canopy20,
    estimate_empty, List.filterMap_nil]

theorem successfulEstimates_twoTreePlot :
    successfulEstimates dbNone twoTreePlot =
      [("t1", canopyEstimate10), ("t3", canopyEstimate20)] := by
  simp only [successfulEstimates, twoTreePlot, List.filterMap_cons,
    canopyRow_measurements, canopyRow_id, estimate_canopy10, estimate_canopy20,
    List.filterMap_nil]

theorem canopyEstimate10_values :
    canopyEstimate10.biomass_estimate_kg = 90 ∧
      canopyEstimate10.carbon_sequestration_kg = 42.3 ∧
      canopyEstimate10.co2_equivalent_kg = 155.24 ∧
      canopyEstimate10.uncertainty_pct = 40 := by
  have hmax : max ((10 : ℝ) * 0.6 * 15) 0.1 = 90 := by norm_num
  refine ⟨?_, ?_, ?_, ?_⟩
  · rw [canopyEstimate10, finishEstimate_biomass, hmax, round2]
    norm_num [round_eq]
  · rw [canopyEstimate10, finishEstimate_carbon, hmax, round2]
    norm_num [round_eq]
  · rw [canopyEstimate10, finishEstimate_co2, hmax, round2]
    norm_num [round_eq]
  · rw [canopyEstimate10, finishEstimate_uncertainty]
    simp only [Option.isSome_none, Bool.false_eq_true, if_false, gmu_crown_area, round1]
    norm_num [round_eq]

theorem canopyEstimate20_values :
    canopyEstimate20.biomass_estimate_kg = 180 ∧
      canopyEstimate20.carbon_sequestration_kg = 84.6 ∧
      canopyEstimate20.co2_equivalent_kg = 310.48 ∧
      canopyEstimate20.uncertainty_pct = 40 := by
  have hmax : max ((20 : ℝ) * 0.6 * 15) 0.1 = 180 := by norm_num
  refine ⟨?_, ?_, ?_, ?_⟩
  · rw [canopyEstimate20, finishEstimate_biomass, hmax, round2]
    norm_num [round_eq]
  · rw [canopyEstimate20, finishEstimate_carbon, hmax, round2]
    norm_num [round_eq]
  · rw [canopyEstimate20, finishEstimate_co2, hmax, round2]
    norm_num [round_eq]
  · rw [canopyEstimate20, finishEstimate_uncertainty]
    simp only [Option.isSome_none, Bool.false_eq_true, if_false, gmu_crown_area, round1]
    norm_num [round_eq]

/-! ## Claims C8 and C9 -/

/-- C8: `estimatePlotBiomass` catches each per-tree estimator failure,
excludes that tree from the results and totals, and accumulates only the
successful trees: the trees array is exactly the list of successful
estimates, total_trees counts only them, the average uncertainty is the
mean over succeeding trees (0 if none succeeded); concretely, a plot of 3
trees, one with no usable measurements, yields total_trees = 2 with the
failing tree absent from the trees array. -/
theorem estimatePlotBiomass_partial_failure (db : String → Option SpeciesData)
    (rows : List DbTreeRow) :
    (estimatePlotBiomass db rows).trees = successfulEstimates db rows ∧
      (estimatePlotBiomass db rows).totals.total_trees =
        (successfulEstimates db rows).length ∧
      (estimatePlotBiomass db rows).totals.average_uncertainty_pct =
        round1 (if 0 < (successfulEstimates db rows).length then
            ((successfulEstimates db rows).map (fun p => p.2.uncertainty_pct)).sum /
              ((successfulEstimates db rows).length : ℝ)
          else 0) ∧
      (estimatePlotBiomass dbNone threeTreePlot).totals.total_trees = 2 ∧
      (estimatePlotBiomass dbNone threeTreePlot).trees.map Prod.fst = ["t1", "t3"] := by
  obtain ⟨h1, h2, _, _, _, h6⟩ := estimatePlotBiomass_spec db rows
  obtain ⟨hc1, hc2, _⟩ := estimatePlotBiomass_spec dbNone threeTreePlot
  refine ⟨h1, h2, h6, ?_, ?_⟩
  · rw [hc2, successfulEstimates_threeTreePlot]
    rfl
  · rw [hc1, successfulEstimates_threeTreePlot]
    rfl

/-- C9 (amended): the plot aggregate returned by `estimatePlotBiomass`
reports its summed totals in kg only, rounded to 2 decimal places (total
biomass, carbon and CO2e); the totals record carries exactly the tree
count, the three kg sums and the average uncertainty, and contains no
tons-denominated values. -/
theorem estimatePlotBiomass_totals_kg (db : String → Option SpeciesData)
    (rows : List DbTreeRow) :
    (estimatePlotBiomass db rows).totals.total_biomass_kg =
        round2 (((successfulEstimates db rows).map
          (fun p => p.2.biomass_estimate_kg)).sum) ∧
      (estimatePlotBiomass db rows).totals.total_carbon_kg =
        round2 (((successfulEstimates db rows).map
          (fun p => p.2.carbon_sequestration_kg)).sum) ∧
      (estimatePlotBiomass db rows).totals.total_co2_equivalent_kg =
        round2 (((successfulEstimates db rows).map
          (fun p => p.2.co2_equivalent_kg)).sum) ∧
      (estimatePlotBiomass db rows).totals.reportedValues =
        [((successfulEstimates db rows).length : ℝ),
          round2 (((successfulEstimates db rows).map
            (fun p => p.2.biomass_estimate_kg)).sum),
          round2 (((successfulEstimates db rows).map
            (fun p => p.2.carbon_sequestration_kg)).sum),
          round2 (((successfulEstimates db rows).map
            (fun p => p.2.co2_equivalent_kg)).sum),
          round1 (if 0 < (successfulEstimates db rows).length then
              ((successfulEstimates db rows).map (fun p => p.2.uncertainty_pct)).sum /
                ((successfulEstimates db rows).length : ℝ)
            else 0)] := by
  obtain ⟨_, h2, h3, h4, h5, h6⟩ := estimatePlotBiomass_spec db rows
  exact ⟨h3, h4, h5, by rw [PlotTotals.reportedValues, h2, h3, h4, h5, h6]⟩

/-- C9 counterexample: for the concrete two-tree plot the aggregate
reports kg totals 270 (biomass) and 126.9 (carbon), and its reported
values are exactly the tree count, the three kg sums and the average
uncertainty — the tons-denominated values 270/1000 and 126.9/1000 appear
nowhere in the reported totals. -/
theorem estimatePlotBiomass_tons_counterexample :
    (estimatePlotBiomass dbNone twoTreePlot).totals.total_biomass_kg = 270 ∧
      (estimatePlotBiomass dbNone twoTreePlot).totals.total_carbon_kg = 126.9 ∧
      (estimatePlotBiomass dbNone twoTreePlot).totals.reportedValues =
        [2, 270, 126.9, 465.72, 40] ∧
      (270 / 1000 : ℝ) ∉ (estimatePlotBiomass dbNone twoTreePlot).totals.reportedValues ∧
      (126.9 / 1000 : ℝ) ∉ (estimatePlotBiomass dbNone twoTreePlot).totals.reportedValues := by
  obtain ⟨hb10, hc10, ho10, hu10⟩ := canopyEstimate10_values
  obtain ⟨hb20, hc20, ho20, hu20⟩ := canopyEstimate20_values
  obtain ⟨_, h2, h3, h4, h5, h6⟩ := estimatePlotBiomass_spec dbNone twoTreePlot
  rw [successfulEstimates_twoTreePlot] at h2 h3 h4 h5 h6
  simp only [List.map_cons, List.map_nil, List.sum_cons, List.sum_nil, List.length_cons,
    List.length_nil, hb10, hb20, hc10, hc20, ho10, ho20, hu10, hu20] at h3 h4 h5 h6
  have hbio : (estimatePlotBiomass dbNone twoTreePlot).totals.total_biomass_kg = 270 := by
    rw [h3, round2]
    norm_num [round_eq]
  have hcar : (estimatePlotBiomass dbNone twoTreePlot).totals.total_carbon_kg = 126.9 := by
    rw [h4, round2]
    norm_num [round_eq]
  have hco2 : (estimatePlotBiomass dbNone twoTreePlot).totals.total_co2_equivalent_kg =
      465.72 := by
    rw [h5, round2]
    norm_num [round_eq]
  have havg : (estimatePlotBiomass dbNone twoTreePlot).totals.average_uncertainty_pct =
      40 := by
    rw [h6, round1]
    norm_num [round_eq]
  have htrees : (estimatePlotBiomass dbNone twoTreePlot).totals.total_trees = 2 := by
    rw [h2]
    rfl
  have hrep : (estimatePlotBiomass dbNone twoTreePlot).totals.reportedValues =
      [2, 270, 126.9, 465.72, 40] := by
    rw [PlotTotals.reportedValues, hbio, hcar, hco2, havg, htrees]
    norm_num
  refine ⟨hbio, hcar, hrep, ?_, ?_⟩ <;>
    · rw [hrep]
      intro hmem
      simp only [List.mem_cons, List.not_mem_nil, or_false] at hmem
      rcases hmem with h | h | h | h | h <;> norm_num at h

/-! ## MRV model helper lemmas -/

theorem writeFileRel_ok {fs : SimFS} {rel : String} {c : FileContent} {fs' : SimFS}
    (h : writeFileRel fs rel c = .ok fs') :
    fs' = { fs with entries := (storPath rel, c) :: fs.entries } := by
  rw [writeFileRel] at h
  split at h
  · exact (((Except.ok.injEq _ _).mp h)).symm
  · exact absurd h (by simp)

theorem str_append_assoc (a b c : String) : a ++ b ++ c = a ++ (b ++ c) :=
  String.ext (by simp [String.data_append])

theorem str_append_left_cancel {s a b : String} (h : s ++ a = s ++ b) : a = b := by
  have h2 := congrArg String.data h
  rw [String.data_append, String.data_append] at h2
  exact String.ext (List.append_cancel_left h2)

theorem storPath_append (a b : String) : storPath a ++ b = storPath (a ++ b) :=
  str_append_assoc _ _ _

theorem storPath_ne {a b : String} (h : a ≠ b) : storPath a ≠ storPath b :=
  fun he => h (str_append_left_cancel he)

theorem relPath_ne (rb : String) {x y : String} (h : x ≠ y) : rb ++ x ≠ rb ++ y :=
  fun he => h (str_append_left_cancel he)

theorem replaceFirstChars_cancel (pat rest : List Char) :
    replaceFirstChars pat [] (pat ++ rest) = rest := by
  cases pat with
  | nil =>
      cases rest with
      | nil => rfl
      | cons c t =>
          show replaceFirstChars [] [] (c :: t) = c :: t
          simp [replaceFirstChars, startsWithChars]
  | cons a as =>
      show replaceFirstChars (a :: as) [] (a :: (as ++ rest)) = rest
      have hsw : startsWithChars (a :: as) (a :: (as ++ rest)) = true := by
        simpa using startsWithChars_self_append (a :: as) rest
      simp [replaceFirstChars, hsw, List.drop_left]

theorem replaceFirst_cancel (p rest : String) :
    replaceFirst (p ++ rest) p "" = rest := by
  apply String.ext
  show replaceFirstChars p.data [] (p ++ rest).data = rest.data
  rw [String.data_append]
  exact replaceFirstChars_cancel _ _

theorem strStartsWith_append (p q : String) : strStartsWith (p ++ q) p = true := by
  rw [strStartsWith, String.data_append]
  exact startsWithChars_self_append _ _

theorem fsLookup_head (k : String) (v : FileContent)
    (rest : List (String × FileContent)) :
    fsLookup ((k, v) :: rest) k = some v := by
  simp [fsLookup]

theorem fsLookup_cons_ne {p q : String} (hne : p ≠ q) (v : FileContent)
    (rest : List (String × FileContent)) :
    fsLookup ((p, v) :: rest) q = fsLookup rest q := by
  simp [fsLookup, hne]

theorem fsLookup_mem {l : List (String × FileContent)} {k : String} {v : FileContent}
    (h : fsLookup l k = some v) : (k, v) ∈ l := by
  induction l with
  | nil => simp [fsLookup] at h
  | cons e rest ih =>
      obtain ⟨p, c⟩ := e
      by_cases hp : p = k
      · subst hp
        rw [fsLookup_head] at h
        simp_all
      · rw [fsLookup_cons_ne hp] at h
        exact List.mem_cons_of_mem _ (ih h)

theorem dirExists_of_checksums {fs : SimFS} {folder : String} {v : FileContent}
    (h : fsLookup fs.entries (folder ++ "/checksums.json") = some v) :
    dirExists fs folder = true := by
  have hm := fsLookup_mem h
  rw [dirExists, List.any_eq_true]
  refine ⟨_, hm, ?_⟩
  show strStartsWith (folder ++ "/checksums.json") (folder ++ "/") = true
  have hsplit : folder ++ "/checksums.json" = (folder ++ "/") ++ "checksums.json" := by
    rw [str_append_assoc]
    congr 1
  rw [hsplit]
  exact strStartsWith_append _ _

theorem findPackage_append_fresh (old : List MRVPackageRow) (pkg : MRVPackageRow)
    (hfresh : ∀ p ∈ old, p.id ≠ pkg.id) :
    findPackage (old ++ [pkg]) pkg.id = some pkg := by
  induction old with
  | nil => simp [findPackage, List.find?]
  | cons q rest ih =>
      rw [findPackage, List.cons_append, List.find?_cons_of_neg]
      · exact ih (fun p hp => hfresh p (List.mem_cons_of_mem _ hp))
      · simp [hfresh q (by simp)]

theorem mem_sortKeys {k : String} {l : List String} : k ∈ sortKeys l ↔ k ∈ l :=
  (List.perm_insertionSort _ l).mem_iff

theorem mem_jsObjectKeys {k : String} {files : List (String × String)} :
    k ∈ jsObjectKeys files ↔ k ∈ files.map Prod.fst :=
  List.mem_dedup

theorem hashFiles_of_lookup (hash : FileContent → String) (fs : SimFS)
    (files : List (String × String)) (keys : List String)
    (hsub : ∀ k ∈ keys, ∃ c, fsLookup fs.entries (storPath k) = some c ∧
      hash c = lookupVal files k) :
    hashFiles hash fs keys = .ok (keys.map (lookupVal files)) := by
  induction keys with
  | nil => rfl
  | cons k ks ih =>
      obtain ⟨c, hc, hh⟩ := hsub k (by simp)
      rw [hashFiles, sha256OfFile, hc,
        ih (fun k' hk' => hsub k' (List.mem_cons_of_mem _ hk'))]
      simp [hh]

theorem exportMRVPackage_ok_spec (hash : FileContent → String) (B : ArtifactBuilders)
    (st : MRVState) (plotId ts : String) (st' : MRVState) (r : ExportResult)
    (h : exportMRVPackage hash B st plotId ts = (st', .ok r)) :
    ∃ plot c1 c2 c3 c4,
      st.plots plotId = some plot ∧
      r = { pkgId := st.nextPkgId
            topHash := hash (.text (checksumConcat
              (exportFiles hash (relBaseOf plotId ts) c1 c2 c3 c4)))
            artifactsUri := "file://" ++ storPath (relBaseOf plotId ts)
            relBase := relBaseOf plotId ts } ∧
      st'.packages = st.packages ++
        [{ id := st.nextPkgId
           runId := (st.runOf plotId).getD plot.id
           schemaVersion := "1.0"
           artifactsUri := "file://" ++ storPath (relBaseOf plotId ts)
           checksum := hash (.text (checksumConcat
             (exportFiles hash (relBaseOf plotId ts) c1 c2 c3 c4)))
           ledgerTxId := none }] ∧
      st'.fs.entries =
        (storPath (relBaseOf plotId ts ++ "/checksums.json"),
          .checks (exportFiles hash (relBaseOf plotId ts) c1 c2 c3 c4)) ::
        (storPath (relBaseOf plotId ts ++ "/reports/summary.md"), c4) ::
        (storPath (relBaseOf plotId ts ++ "/manifest.json"), c3) ::
        (storPath (relBaseOf plotId ts ++ "/outputs/estimates.json"), c2) ::
        (storPath (relBaseOf plotId ts ++ "/inputs/trees.json"), c1) ::
        st.fs.entries := by
  simp only [exportMRVPackage] at h
  split at h
  · simp at h
  next plot hplot =>
  split at h
  · simp at h
  next fs1 hw1 =>
  split at h
  · simp at h
  next fs2 hw2 =>
  split at h
  · simp at h
  next fs3 hw3 =>
  split at h
  · simp at h
  next fs4 hw4 =>
  split at h
  · simp at h
  next d1 hs1 =>
  split at h
  · simp at h
  next d2 hs2 =>
  split at h
  · simp at h
  next d3 hs3 =>
  split at h
  · simp at h
  next d4 hs4 =>
  split at h
  · simp at h
  next fs5 hw5 =>
  rw [Prod.mk.injEq] at h
  obtain ⟨hst', hok⟩ := h
  rw [Except.ok.injEq] at hok
  have e1 := writeFileRel_ok hw1
  subst e1
  have e2 := writeFileRel_ok hw2
  subst e2
  have e3 := writeFileRel_ok hw3
  subst e3
  have e4 := writeFileRel_ok hw4
  subst e4
  have e5 := writeFileRel_ok hw5
  subst e5
  rw [sha256OfFile, fsLookup_cons_ne (storPath_ne (relPath_ne _ (by decide))),
    fsLookup_cons_ne (storPath_ne (relPath_ne _ (by decide))),
    fsLookup_cons_ne (storPath_ne (relPath_ne _ (by decide))),
    fsLookup_head, Except.ok.injEq] at hs1
  subst hs1
  rw [sha256OfFile, fsLookup_cons_ne (storPath_ne (relPath_ne _ (by decide))),
    fsLookup_cons_ne (storPath_ne (relPath_ne _ (by decide))),
    fsLookup_head, Except.ok.injEq] at hs2
  subst hs2
  rw [sha256OfFile, fsLookup_cons_ne (storPath_ne (relPath_ne _ (by decide))),
    fsLookup_head, Except.ok.injEq] at hs3
  subst hs3
  rw [sha256OfFile, fsLookup_head, Except.ok.injEq] at hs4
  subst hs4
  subst hst'
  subst hok
  exact ⟨plot, _, _, _, _, hplot, rfl, rfl, rfl⟩

theorem exportMRVPackage_error_packages (hash : FileContent → String)
    (B : ArtifactBuilders) (st : MRVState) (plotId ts : String)
    (st' : MRVState) (e : String)
    (h : exportMRVPackage hash B st plotId ts = (st', .error e)) :
    st'.packages = st.packages := by
  simp only [exportMRVPackage] at h
  split at h
  all_goals try split at h
  all_goals try split at h
  all_goals try split at h
  all_goals try split at h
  all_goals try split at h
  all_goals try split at h
  all_goals try split at h
  all_goals try split at h
  all_goals try split at h
  all_goals
    rw [Prod.mk.injEq] at h
  all_goals
    obtain ⟨h1, h2⟩ := h
  all_goals
    first
      | (subst h1; rfl)
      | exact absurd h2 (by simp)

theorem hashFiles_congr (hash : FileContent → String) (fs1 fs2 : SimFS)
    (keys : List String)
    (h : ∀ k ∈ keys, fsLookup fs1.entries (storPath k) =
      fsLookup fs2.entries (storPath k)) :
    hashFiles hash fs1 keys = hashFiles hash fs2 keys := by
  induction keys with
  | nil => rfl
  | cons k ks ih =>
      rw [hashFiles, hashFiles, sha256OfFile, sha256OfFile, h k (by simp),
        ih (fun k' h' => h k' (List.mem_cons_of_mem _ h'))]

/-! ## Claim C4 -/

/-- C4: for any plot (with at least one tree row), a successful
`exportMRVPackage` followed immediately by `verify` on the returned
package id yields `matches = true`: both sides build the aggregate hash
from the sorted file-path keys of the checksums map, joining the per-file
digests with bar separators and hashing the concatenation, so with the
artifact files unmodified the recomputed hash equals the stored one. -/
theorem exportThenVerify (hash : FileContent → String) (B : ArtifactBuilders)
    (st : MRVState) (plotId ts : String) (st' : MRVState) (r : ExportResult)
    (hfresh : ∀ p ∈ st.packages, p.id ≠ st.nextPkgId)
    (htrees : st.treesOf plotId ≠ [])
    (hexp : exportMRVPackage hash B st plotId ts = (st', .ok r)) :
    verifyMRVPackage hash st' r.pkgId =
      .ok { pkgId := r.pkgId, storedChecksum := r.topHash
            recomputedChecksum := r.topHash, «matches» := true
            ledgerTxId := none } := by
  obtain ⟨plot, c1, c2, c3, c4, hplot, hr, hpkgs, hfs⟩ :=
    exportMRVPackage_ok_spec hash B st plotId ts st' r hexp
  subst hr
  have hfind : findPackage st'.packages st.nextPkgId =
      some { id := st.nextPkgId, runId := (st.runOf plotId).getD plot.id
             schemaVersion := "1.0"
             artifactsUri := "file://" ++ storPath (relBaseOf plotId ts)
             checksum := hash (.text (checksumConcat
               (exportFiles hash (relBaseOf plotId ts) c1 c2 c3 c4)))
             ledgerTxId := none } := by
    rw [hpkgs]
    exact findPackage_append_fresh _ _ (fun p hp => hfresh p hp)
  have hcs : fsLookup st'.fs.entries
      (storPath (relBaseOf plotId ts) ++ "/checksums.json") =
      some (.checks (exportFiles hash (relBaseOf plotId ts) c1 c2 c3 c4)) := by
    rw [storPath_append, hfs]
    exact fsLookup_head _ _ _
  have hdir : dirExists st'.fs (storPath (relBaseOf plotId ts)) = true :=
    dirExists_of_checksums hcs
  have hv1 : lookupVal (exportFiles hash (relBaseOf plotId ts) c1 c2 c3 c4)
      (relBaseOf plotId ts ++ "/inputs/trees.json") = hash c1 := by
    simp only [exportFiles, lookupVal]
    simp
  have hv2 : lookupVal (exportFiles hash (relBaseOf plotId ts) c1 c2 c3 c4)
      (relBaseOf plotId ts ++ "/outputs/estimates.json") = hash c2 := by
    simp only [exportFiles, lookupVal]
    rw [if_neg (relPath_ne _ (by decide))]
    simp
  have hv3 : lookupVal (exportFiles hash (relBaseOf plotId ts) c1 c2 c3 c4)
      (relBaseOf plotId ts ++ "/manifest.json") = hash c3 := by
    simp only [exportFiles, lookupVal]
    rw [if_neg (relPath_ne _ (by decide)), if_neg (relPath_ne _ (by decide))]
    simp
  have hv4 : lookupVal (exportFiles hash (relBaseOf plotId ts) c1 c2 c3 c4)
      (relBaseOf plotId ts ++ "/reports/summary.md") = hash c4 := by
    simp only [exportFiles, lookupVal]
    rw [if_neg (relPath_ne _ (by decide)), if_neg (relPath_ne _ (by decide)),
      if_neg (relPath_ne _ (by decide))]
    simp
  have hhash : hashFiles hash st'.fs
      (sortKeys (jsObjectKeys (exportFiles hash (relBaseOf plotId ts) c1 c2 c3 c4))) =
      .ok ((sortKeys (jsObjectKeys (exportFiles hash (relBaseOf plotId ts) c1 c2 c3 c4))).map
        (lookupVal (exportFiles hash (relBaseOf plotId ts) c1 c2 c3 c4))) := by
    apply hashFiles_of_lookup
    intro k hk
    rw [mem_sortKeys, mem_jsObjectKeys] at hk
    simp only [exportFiles, List.map_cons, List.map_nil, List.mem_cons,
      List.not_mem_nil, or_false] at hk
    rcases hk with rfl | rfl | rfl | rfl
    · refine ⟨c1, ?_, hv1.symm⟩
      rw [hfs, fsLookup_cons_ne (storPath_ne (relPath_ne _ (by decide))),
        fsLookup_cons_ne (storPath_ne (relPath_ne _ (by decide))),
        fsLookup_cons_ne (storPath_ne (relPath_ne _ (by decide))),
        fsLookup_cons_ne (storPath_ne (relPath_ne _ (by decide)))]
      exact fsLookup_head _ _ _
    · refine ⟨c2, ?_, hv2.symm⟩
      rw [hfs, fsLookup_cons_ne (storPath_ne (relPath_ne _ (by decide))),
        fsLookup_cons_ne (storPath_ne (relPath_ne _ (by decide))),
        fsLookup_cons_ne (storPath_ne (relPath_ne _ (by decide)))]
      exact fsLookup_head _ _ _
    · refine ⟨c3, ?_, hv3.symm⟩
      rw [hfs, fsLookup_cons_ne (storPath_ne (relPath_ne _ (by decide))),
        fsLookup_cons_ne (storPath_ne (relPath_ne _ (by decide)))]
      exact fsLookup_head _ _ _
    · refine ⟨c4, ?_, hv4.symm⟩
      rw [hfs, fsLookup_cons_ne (storPath_ne (relPath_ne _ (by decide)))]
      exact fsLookup_head _ _ _
  rw [verifyMRVPackage, hfind]
  dsimp only
  rw [replaceFirst_cancel]
  rw [hdir]
  simp only [eq_self_iff_true, if_true]
  rw [hcs]
  dsimp only
  rw [hhash]
  dsimp only
  rw [checksumConcat]
  simp

/-- Witness for C4: the concrete export run on `st0` verifies with
`matches = true`. -/
theorem exportThenVerify_witness :
    verifyMRVPackage hashLen exportW.1 exportResW.pkgId =
      .ok { pkgId := exportResW.pkgId, storedChecksum := exportResW.topHash
            recomputedChecksum := exportResW.topHash, «matches» := true
            ledgerTxId := none } :=
  exportThenVerify hashLen B0 st0 "p1" "ts" exportW.1 exportResW
    (by intro p hp; simp [st0] at hp) (by simp [st0]) rfl

/-! ## Claim C6 -/

/-- C6 (amended): `exportMRVPackage` fails with a "Plot not found" error
when the plot id does not resolve, leaving the state unchanged, and the
export route surfaces that (like every export failure) as an HTTP 500
with the error message; any failure during artifact writing or per-file
hashing aborts the whole export with no MRVPackage row persisted — on
success the package record is appended only after all four artifact
files and the checksums file are in place. -/
theorem exportMRVPackage_error_handling (hash : FileContent → String)
    (B : ArtifactBuilders) (now : String) (st : MRVState) (plotId ts : String) :
    (st.plots plotId = none →
      exportMRVPackage hash B st plotId ts = (st, .error "Plot not found") ∧
      exportRoute hash B now st plotId ts = (st, 500, .failed "Plot not found")) ∧
    (∀ st' e, exportMRVPackage hash B st plotId ts = (st', .error e) →
      st'.packages = st.packages) ∧
    (∀ st' r, exportMRVPackage hash B st plotId ts = (st', .ok r) →
      ∃ row, st'.packages = st.packages ++ [row] ∧ row.id = r.pkgId ∧
        row.checksum = r.topHash ∧
        (fsLookup st'.fs.entries
          (storPath (relBaseOf plotId ts ++ "/inputs/trees.json"))).isSome ∧
        (fsLookup st'.fs.entries
          (storPath (relBaseOf plotId ts ++ "/outputs/estimates.json"))).isSome ∧
        (fsLookup st'.fs.entries
          (storPath (relBaseOf plotId ts ++ "/manifest.json"))).isSome ∧
        (fsLookup st'.fs.entries
          (storPath (relBaseOf plotId ts ++ "/reports/summary.md"))).isSome ∧
        (fsLookup st'.fs.entries
          (storPath (relBaseOf plotId ts ++ "/checksums.json"))).isSome) := by
  refine ⟨?_, ?_, ?_⟩
  · intro hnone
    have hexp : exportMRVPackage hash B st plotId ts = (st, .error "Plot not found") := by
      rw [exportMRVPackage, hnone]
    refine ⟨hexp, ?_⟩
    rw [exportRoute, hexp]
  · exact fun st' e h => exportMRVPackage_error_packages hash B st plotId ts st' e h
  · intro st' r h
    obtain ⟨plot, c1, c2, c3, c4, hplot, hr, hpkgs, hfs⟩ :=
      exportMRVPackage_ok_spec hash B st plotId ts st' r h
    subst hr
    refine ⟨_, hpkgs, rfl, rfl, ?_, ?_, ?_, ?_, ?_⟩
    · rw [hfs, fsLookup_cons_ne (storPath_ne (relPath_ne _ (by decide))),
        fsLookup_cons_ne (storPath_ne (relPath_ne _ (by decide))),
        fsLookup_cons_ne (storPath_ne (relPath_ne _ (by decide))),
        fsLookup_cons_ne (storPath_ne (relPath_ne _ (by decide))), fsLookup_head]
      rfl
    · rw [hfs, fsLookup_cons_ne (storPath_ne (relPath_ne _ (by decide))),
        fsLookup_cons_ne (storPath_ne (relPath_ne _ (by decide))),
        fsLookup_cons_ne (storPath_ne (relPath_ne _ (by decide))), fsLookup_head]
      rfl
    · rw [hfs, fsLookup_cons_ne (storPath_ne (relPath_ne _ (by decide))),
        fsLookup_cons_ne (storPath_ne (relPath_ne _ (by decide))), fsLookup_head]
      rfl
    · rw [hfs, fsLookup_cons_ne (storPath_ne (relPath_ne _ (by decide))),
        fsLookup_head]
      rfl
    · rw [hfs, fsLookup_head]
      rfl

/-- Witness for C6 at the concrete plotless state. -/
theorem exportMRVPackage_error_handling_witness :
    exportMRVPackage hashLen B0 stEmpty "p1" "ts" =
        (stEmpty, .error "Plot not found") ∧
      exportRoute hashLen B0 "now" stEmpty "p1" "ts" =
        (stEmpty, 500, .failed "Plot not found") :=
  (exportMRVPackage_error_handling hashLen B0 "now" stEmpty "p1" "ts").1 rfl

/-- C6 counterexample: a missing plot is answered by the export route
with HTTP status 500 — a server-error status, not the 400-class client
error the claim asserts. -/
theorem exportRoute_status_counterexample :
    exportMRVPackage hashLen B0 stEmpty "p1" "ts" =
        (stEmpty, .error "Plot not found") ∧
      (exportRoute hashLen B0 "now" stEmpty "p1" "ts").2.1 = 500 ∧
      ¬(400 ≤ (exportRoute hashLen B0 "now" stEmpty "p1" "ts").2.1 ∧
        (exportRoute hashLen B0 "now" stEmpty "p1" "ts").2.1 < 500) := by
  refine ⟨rfl, rfl, ?_⟩
  intro hcl
  have h5 : (exportRoute hashLen B0 "now" stEmpty "p1" "ts").2.1 = 500 := rfl
  rw [h5] at hcl
  exact absurd hcl.2 (by norm_num)

/-! ## Claim C10 -/

/-- C10: package verification never reads the per-file digest values
recorded in `checksums.json` — only its set of file-path keys: two states
with the same stored package record, checksums files with the same key
set, and the same artifact file contents on disk verify to the very same
result (same recomputed checksum, same match flag). -/
theorem verifyIgnoresDigests (hash : FileContent → String)
    (st1 st2 : MRVState) (pkgId : String) (pkg : MRVPackageRow)
    (f1 f2 : List (String × String))
    (hp1 : findPackage st1.packages pkgId = some pkg)
    (hp2 : findPackage st2.packages pkgId = some pkg)
    (hc1 : fsLookup st1.fs.entries
      (replaceFirst pkg.artifactsUri "file://" "" ++ "/checksums.json") =
      some (.checks f1))
    (hc2 : fsLookup st2.fs.entries
      (replaceFirst pkg.artifactsUri "file://" "" ++ "/checksums.json") =
      some (.checks f2))
    (hkeys : (f1.map Prod.fst).toFinset = (f2.map Prod.fst).toFinset)
    (hfiles : ∀ k ∈ f1.map Prod.fst,
      fsLookup st1.fs.entries (storPath k) = fsLookup st2.fs.entries (storPath k)) :
    verifyMRVPackage hash st1 pkgId = verifyMRVPackage hash st2 pkgId := by
  have hksort : sortKeys (jsObjectKeys f1) = sortKeys (jsObjectKeys f2) := by
    have hperm : List.Perm ((f1.map Prod.fst).dedup) ((f2.map Prod.fst).dedup) :=
      List.toFinset_eq_iff_perm_dedup.mp hkeys
    exact List.eq_of_perm_of_sorted
      ((List.perm_insertionSort _ _).trans
        (hperm.trans (List.perm_insertionSort _ _).symm))
      (List.sorted_insertionSort _ _) (List.sorted_insertionSort _ _)
  have hdir1 : dirExists st1.fs (replaceFirst pkg.artifactsUri "file://" "") = true :=
    dirExists_of_checksums hc1
  have hdir2 : dirExists st2.fs (replaceFirst pkg.artifactsUri "file://" "") = true :=
    dirExists_of_checksums hc2
  have hcong : hashFiles hash st1.fs (sortKeys (jsObjectKeys f1)) =
      hashFiles hash st2.fs (sortKeys (jsObjectKeys f1)) := by
    apply hashFiles_congr
    intro k hk
    rw [mem_sortKeys, mem_jsObjectKeys] at hk
    exact hfiles k hk
  rw [verifyMRVPackage, verifyMRVPackage, hp1, hp2]
  dsimp only
  rw [hdir1, hdir2]
  simp only [eq_self_iff_true, if_true]
  rw [hc1, hc2]
  dsimp only
  rw [← hksort, hcong]

/-- Witness for C10: two concrete states whose checksums files record
different digit values for the same key verify identically. -/
theorem verifyIgnoresDigests_witness :
    verifyMRVPackage hashLen stW1 "pkg1" = verifyMRVPackage hashLen stW2 "pkg1" :=
  verifyIgnoresDigests hashLen stW1 stW2 "pkg1" pkgW [("a", "x")] [("a", "y")]
    rfl rfl rfl rfl rfl (by decide)

end AgriMRV
